import Mathlib

/-!
Verification of the Ontario RRIF strategy-comparison frontend.

The definitions below are a shallow embedding of the TypeScript sources:
* `src/frontend/src/strategies.ts` — the strategy registry,
* `src/frontend/src/App.tsx` (and its later revision) — the wizard state,
  the scenario payload and the comparison request,
* `src/frontend/src/components/ResultsPage.tsx` and `ReportPage.tsx` — the
  goal-based recommendation logic,
* `src/frontend/src/components/InputFormStep.tsx` — field-limit checks and
  the Run Simulation button,
* `src/frontend/src/components/SimulationForm.tsx` — the yup validation
  schema for strategy parameters,
* `src/frontend/src/api.ts` — the request body built by `runSimulation`.

JavaScript numbers are modelled as `ℚ`, optional/nullable fields as
`Option`, and records as structures with the source field names.
-/

namespace OntarioTaxApp

/-! ## Strategy registry (`strategies.ts`) -/

structure StrategyMeta where
  code : String
  label : String
  blurb : String
  default_complexity : ℚ
  typical_goals : List String
deriving Repr, DecidableEq

def ALL_STRATEGIES : List StrategyMeta := [
  { code := "BF", label := "Bracket-Filling",
    blurb := "Cap taxable income at a chosen ceiling.",
    default_complexity := 2, typical_goals := ["minimize_tax", "simplify"] },
  { code := "GM", label := "Gradual Meltdown",
    blurb := "Withdraw just enough each year to meet spending.",
    default_complexity := 1, typical_goals := ["maximize_spending", "simplify"] },
  { code := "E65", label := "Early RRIF @65",
    blurb := "Convert RRSP early for pension credits & income splitting.",
    default_complexity := 2, typical_goals := ["minimize_tax"] },
  { code := "CD", label := "CPP/OAS Delay",
    blurb := "Delay government pensions; bridge spending with RRIF.",
    default_complexity := 3, typical_goals := ["maximize_spending"] },
  { code := "SEQ", label := "Spousal Equalisation",
    blurb := "Even out taxable income between spouses.",
    default_complexity := 3, typical_goals := ["minimize_tax"] },
  { code := "IO", label := "Interest-Offset Loan",
    blurb := "Use deductible interest to offset RRIF tax.",
    default_complexity := 5, typical_goals := ["minimize_tax"] },
  { code := "LS", label := "Lump-Sum Withdrawal",
    blurb := "One-time large withdrawal in a specified year.",
    default_complexity := 2, typical_goals := ["simplify"] },
  { code := "EBX", label := "Empty-by-X",
    blurb := "Systematically deplete RRIF by a target age.",
    default_complexity := 2, typical_goals := ["preserve_estate", "minimize_tax"] },
  { code := "MIN", label := "RRIF Minimum Only",
    blurb := "Withdraw only the CRA-mandated minimum each year.",
    default_complexity := 1, typical_goals := ["simplify", "preserve_estate"] }
]

def allStrategyCodes : List String := ALL_STRATEGIES.map (fun s => s.code)

def registeredLabels : List String := ALL_STRATEGIES.map (fun s => s.label)

/-! ## Wizard form data (`types/formData.ts`, initial state in `App.tsx`) -/

structure FormData where
  age : ℚ
  rrspBalance : ℚ
  tfsaBalance : ℚ
  cppAmount : ℚ
  oasAmount : ℚ
  desiredSpending : ℚ
  expectedReturn : ℚ
  stdDevReturn : ℚ
  horizon : ℚ
  married : Bool
  spouseAge : Option ℚ := none
  spouseRrspBalance : Option ℚ := none
  spouseTfsaBalance : Option ℚ := none
  spouseCppAmount : Option ℚ := none
  spouseOasAmount : Option ℚ := none
  bracketFillCeiling : Option ℚ := none
  cppStartAge : Option ℚ := none
  lumpSumAmount : Option ℚ := none
  lumpSumYear : Option ℚ := none
  emptyByAge : Option ℚ := none
  goal : String
  strategies : List String
deriving Repr, DecidableEq

/-- The wizard's initial `useState` value in `App.tsx`. -/
def initialFormData : FormData :=
  { age := 65, rrspBalance := 500000, tfsaBalance := 100000,
    cppAmount := 12000, oasAmount := 8000, desiredSpending := 60000,
    expectedReturn := 5, stdDevReturn := 8, horizon := 30,
    married := false, goal := "", strategies := [] }

/-- JavaScript falsiness of an optional numeric field (`!formData.x`):
`undefined` and `0` are falsy. -/
def jsFalsyOpt (o : Option ℚ) : Bool :=
  match o with
  | none => true
  | some x => x == 0

/-- `onToggleStrategy` in the wizard (`App.tsx` revision, `StrategyStep`
wiring): stores the new code list and pre-fills defaults for strategies
that require parameters, checking the pre-toggle form data. -/
def applyStrategyToggle (fd : FormData) (codes : List String) : FormData :=
  let fd1 := { fd with strategies := codes }
  let fd2 :=
    if codes.contains "LS" && jsFalsyOpt fd.lumpSumAmount then
      { fd1 with lumpSumAmount := some 90000, lumpSumYear := some 20 }
    else fd1
  let fd3 :=
    if codes.contains "BF" && jsFalsyOpt fd.bracketFillCeiling then
      { fd2 with bracketFillCeiling := some 90000 }
    else fd2
  let fd4 :=
    if codes.contains "CD" && jsFalsyOpt fd.cppStartAge then
      { fd3 with cppStartAge := some 70 }
    else fd3
  if codes.contains "EBX" && jsFalsyOpt fd.emptyByAge then
    { fd4 with emptyByAge := some 90 }
  else fd4

/-- `StrategyStep`'s `onNext` handler in `App.tsx`: selecting SEQ marks the
household married before moving to the input step. -/
def advanceFromStrategyStep (fd : FormData) : FormData :=
  if fd.strategies.contains "SEQ" then { fd with married := true } else fd

/-- The marital-status checkbox handler in `InputFormStep.tsx`
(`handleMarriedChange` → `onChange \x7b married: checked \x7d`). -/
def setMarried (fd : FormData) (checked : Bool) : FormData :=
  { fd with married := checked }

/-! ## Scenario payload and comparison request (`App.tsx`) -/

/-- `handleRunSimulation`'s pretty-goal → enum mapping. -/
def goalEnum (goal : String) : String :=
  if goal = "Minimize Tax" then "minimize_tax"
  else if goal = "Maximize Spending" then "maximize_spending"
  else if goal = "Preserve Estate" then "preserve_estate"
  else "simplify"

structure SpousePayload where
  age : Option ℚ
  rrsp_balance : Option ℚ
  tfsa_balance : Option ℚ
  cpp_at_65 : Option ℚ
  oas_at_65 : Option ℚ
deriving Repr, DecidableEq

structure StrategyParamsOverride where
  bracket_fill_ceiling : Option ℚ
  cpp_start_age : Option ℚ
  lump_sum_year_offset : Option ℚ
  target_depletion_age : Option ℚ
deriving Repr, DecidableEq

structure ScenarioPayload where
  age : ℚ
  rrsp_balance : ℚ
  tfsa_balance : ℚ
  cpp_at_65 : ℚ
  oas_at_65 : ℚ
  desired_spending : ℚ
  expect_return_pct : ℚ
  stddev_return_pct : ℚ
  life_expectancy_years : ℚ
  province : String
  goal : String
  spouse : Option SpousePayload
  strategy_params_override : StrategyParamsOverride
deriving Repr, DecidableEq

/-- The snake_case `scenarioPayload` built in `handleRunSimulation`
(`App.tsx`): the `spouse` object is present exactly when `married`. -/
def buildScenarioPayload (fd : FormData) : ScenarioPayload :=
  { age := fd.age
    rrsp_balance := fd.rrspBalance
    tfsa_balance := fd.tfsaBalance
    cpp_at_65 := fd.cppAmount
    oas_at_65 := fd.oasAmount
    desired_spending := fd.desiredSpending
    expect_return_pct := fd.expectedReturn
    stddev_return_pct := fd.stdDevReturn
    life_expectancy_years := fd.horizon
    province := "ON"
    goal := goalEnum fd.goal
    spouse :=
      if fd.married then
        some { age := fd.spouseAge
               rrsp_balance := fd.spouseRrspBalance
               tfsa_balance := fd.spouseTfsaBalance
               cpp_at_65 := fd.spouseCppAmount
               oas_at_65 := fd.spouseOasAmount }
      else none
    strategy_params_override :=
      { bracket_fill_ceiling := fd.bracketFillCeiling
        cpp_start_age := fd.cppStartAge
        lump_sum_year_offset := fd.lumpSumYear
        target_depletion_age := fd.emptyByAge } }

/-- Step 3 of `handleRunSimulation`: the strategy codes sent to
`/api/v1/compare` (`strategyList`). -/
def buildStrategyList (selected : List String) : List String :=
  if selected.length > 0 then selected else ["GM"]

structure CompareRequest where
  scenario : ScenarioPayload
  strategies : List String
deriving Repr, DecidableEq

/-- The body POSTed to the compare endpoint by `handleRunSimulation`. -/
def buildCompareRequest (fd : FormData) : CompareRequest :=
  { scenario := buildScenarioPayload fd
    strategies := buildStrategyList fd.strategies }

/-- The OAS claw-back threshold for 2025 documented in the repository
(README section rendered in `Calculator.tsx`). -/
def oasClawbackThreshold2025 : ℚ := 93454

/-! ## Results normalization and recommendation
(`ResultsPage.tsx`, `ReportPage.tsx`) -/

/-- The fields of `SummaryMetrics` that the normalization in
`ResultsPage.tsx` reads. -/
structure SummaryMetrics where
  lifetime_tax_paid_nominal : ℚ
  average_annual_real_spending : ℚ
  net_value_to_heirs_after_final_taxes_pv : ℚ
  final_total_portfolio_value_nominal : ℚ
deriving Repr, DecidableEq

/-- A raw `ComparisonResponseItem` as consumed by `ResultsPage.tsx`; the
component guards `summary` with optional chaining, so it is `Option` here. -/
structure RawResult where
  strategy_code : String
  strategy_name : String
  total_taxes : Option ℚ
  total_spending : Option ℚ
  final_estate : Option ℚ
  summary : Option SummaryMetrics
deriving Repr, DecidableEq

/-- A result after `ResultsPage`'s `processedResults` normalization (also
the `ProcessedResult` type consumed by `ReportPage.tsx`). -/
structure ProcessedResult where
  strategy_code : String
  strategy_name : String
  totalTaxes : Option ℚ
  totalSpending : Option ℚ
  finalEstate : Option ℚ
deriving Repr, DecidableEq

/-- The `processedResults` mapping in `ResultsPage.tsx`: each metric is the
first non-nullish value in the source's `??` chain. -/
def normalizeResult (r : RawResult) : ProcessedResult :=
  { strategy_code := r.strategy_code
    strategy_name := r.strategy_name
    totalTaxes :=
      match r.total_taxes with
      | some v => some v
      | none => r.summary.map (fun s => s.lifetime_tax_paid_nominal)
    totalSpending :=
      match r.total_spending with
      | some v => some v
      | none => r.summary.map (fun s => s.average_annual_real_spending)
    finalEstate :=
      match r.final_estate with
      | some v => some v
      | none =>
        match r.summary.map (fun s => s.net_value_to_heirs_after_final_taxes_pv) with
        | some v => some v
        | none => r.summary.map (fun s => s.final_total_portfolio_value_nominal) }

/-- One comparison step of the goal-based selection shared by
`ResultsPage`'s `forEach` body and `ReportPage`'s `reduce` body: replace the
current best exactly when the source's condition fires. -/
def recStep (goal : String) (best r : ProcessedResult) : ProcessedResult :=
  if goal = "Minimize Tax" then
    match r.totalTaxes, best.totalTaxes with
    | some _, none => r
    | some x, some y => if x < y then r else best
    | none, _ => best
  else if goal = "Maximize Spending" then
    match r.totalSpending, best.totalSpending with
    | some _, none => r
    | some x, some y => if x > y then r else best
    | none, _ => best
  else if goal = "Preserve Estate" then
    match r.finalEstate, best.finalEstate with
    | some _, none => r
    | some x, some y => if x > y then r else best
    | none, _ => best
  else if goal = "Simplify" then
    if r.strategy_name = "RRIF Minimums Only" then r else best
  else best

/-- `ResultsPage.tsx`'s `recommended` memo over an already-normalized list:
`null` for an empty list, otherwise a `forEach` over the whole list starting
from its first element. -/
def recommendedCore (goal : String) (l : List ProcessedResult) : Option ProcessedResult :=
  match l with
  | [] => none
  | h :: _ => some (l.foldl (recStep goal) h)

/-- `ResultsPage.tsx`'s `recommended`, including the `processedResults`
normalization of the raw response items. -/
def resultsPageRecommended (goal : String) (results : List RawResult) : Option ProcessedResult :=
  recommendedCore goal (results.map normalizeResult)

/-- One step of `ReportPage.tsx`'s `reduce`: the `if (!best) return res`
guard then the shared comparison. -/
def reportStep (goal : String) (best : Option ProcessedResult) (r : ProcessedResult) :
    Option ProcessedResult :=
  match best with
  | none => some r
  | some b => some (recStep goal b r)

/-- `ReportPage.tsx`'s `recommended`: `results.reduce(…, results[0])`, i.e.
a fold over the whole list whose initial accumulator is the first element
(`undefined`, modelled `none`, when the list is empty). -/
def reportPageRecommended (goal : String) (l : List ProcessedResult) : Option ProcessedResult :=
  l.foldl (reportStep goal) l.head?

/-- The numeric value of a normalized `totalTaxes` field (meaningful under
an all-non-null hypothesis). -/
def totalTaxesVal (r : ProcessedResult) : ℚ := r.totalTaxes.getD 0

/-- Strict-minimum selection fold: the common shape of the goal-based
comparison once every key is known to be non-null. -/
def selMinBy {α : Type} (val : α → ℚ) (b : α) (l : List α) : α :=
  l.foldl (fun best r => if val r < val best then r else best) b

/-! ## Field-limit checks and the Run Simulation button
(`InputFormStep.tsx`) -/

/-- One entry of `fieldLimits` in `InputFormStep.tsx`. -/
structure Limit where
  lo : ℚ
  hi : ℚ
deriving Repr, DecidableEq

def ageLimit : Limit := ⟨50, 100⟩
def rrspBalanceLimit : Limit := ⟨100, 50000000⟩
def tfsaBalanceLimit : Limit := ⟨0, 200000⟩
def cppAmountLimit : Limit := ⟨0, 18000⟩
def oasAmountLimit : Limit := ⟨0, 10000⟩
def desiredSpendingLimit : Limit := ⟨20000, 300000⟩
def expectedReturnLimit : Limit := ⟨1/2, 12⟩
def stdDevReturnLimit : Limit := ⟨1/2, 25⟩
def horizonYearsLimit : Limit := ⟨5, 40⟩
def bracketFillCeilingLimit : Limit := ⟨30000, 250000⟩
def cppStartAgeLimit : Limit := ⟨60, 70⟩
def lumpSumAmountLimit : Limit := ⟨1000, 500000⟩

def CPP_MAX : ℚ := 17060
def OAS_MAX : ℚ := 8500

def outOfLimit (l : Limit) (x : ℚ) : Bool := x < l.lo || x > l.hi

def optOutOfLimit (l : Limit) (o : Option ℚ) : Bool :=
  match o with
  | none => false
  | some x => outOfLimit l x

/-- The disjunction of every per-field error flag computed in
`InputFormStep.tsx` (`cppGovError`, `isAgeError`, …, `isEmptyByAgeError`). -/
def hasFieldError (fd : FormData) : Bool :=
  (fd.cppAmount > CPP_MAX) ||
  (fd.oasAmount > OAS_MAX) ||
  (match fd.spouseCppAmount with | none => false | some x => x > CPP_MAX) ||
  (match fd.spouseOasAmount with | none => false | some x => x > OAS_MAX) ||
  outOfLimit ageLimit fd.age ||
  outOfLimit rrspBalanceLimit fd.rrspBalance ||
  outOfLimit tfsaBalanceLimit fd.tfsaBalance ||
  outOfLimit cppAmountLimit fd.cppAmount ||
  outOfLimit oasAmountLimit fd.oasAmount ||
  outOfLimit desiredSpendingLimit fd.desiredSpending ||
  outOfLimit expectedReturnLimit fd.expectedReturn ||
  outOfLimit stdDevReturnLimit fd.stdDevReturn ||
  outOfLimit horizonYearsLimit fd.horizon ||
  optOutOfLimit ageLimit fd.spouseAge ||
  optOutOfLimit rrspBalanceLimit fd.spouseRrspBalance ||
  optOutOfLimit tfsaBalanceLimit fd.spouseTfsaBalance ||
  optOutOfLimit cppAmountLimit fd.spouseCppAmount ||
  optOutOfLimit oasAmountLimit fd.spouseOasAmount ||
  optOutOfLimit bracketFillCeilingLimit fd.bracketFillCeiling ||
  optOutOfLimit cppStartAgeLimit fd.cppStartAge ||
  optOutOfLimit lumpSumAmountLimit fd.lumpSumAmount ||
  (match fd.lumpSumYear with | none => false | some x => x < 1 || x > fd.horizon) ||
  (match fd.emptyByAge with | none => false | some x => x < fd.age + 5 || x > 100)

/-- The Run Simulation button in `InputFormStep.tsx` carries no `disabled`
prop: it is never disabled, for any form state. -/
def runSimulationButtonDisabled (_fd : FormData) : Bool := false

/-- Activating Run Simulation: when the button is enabled its `onClick`
runs `handleRunSimulation`, which unconditionally builds and POSTs the
comparison request (`App.tsx` performs no validation before `fetch`). -/
def clickRunSimulation (fd : FormData) : Option CompareRequest :=
  if runSimulationButtonDisabled fd then none else some (buildCompareRequest fd)

/-! ## Strategy-parameter validation schema (`SimulationForm.tsx`) -/

structure StrategyParamsInput where
  bracket_fill_ceiling : Option ℚ := none
  lump_sum_amount : Option ℚ := none
  lump_sum_year_offset : Option ℚ := none
  target_depletion_age : Option ℚ := none
  cpp_start_age : Option ℚ := none
  oas_start_age : Option ℚ := none
  interest_rate : Option ℚ := none
  loan_pct_rrif : Option ℚ := none
deriving Repr, DecidableEq

/-- The yup-resolver context built from the strategy toggles
(`bf`, `ls`, `ebx`, `delay`, `interest`). -/
structure SchemaContext where
  bf : Bool
  ls : Bool
  ebx : Bool
  delay : Bool
  interest : Bool
deriving Repr, DecidableEq

/-- yup `number()` with a conditional `required()`: an absent value passes
exactly when the field is not required; a present value passes. -/
def validNumberField (required : Bool) (v : Option ℚ) : Bool :=
  match v with
  | none => !required
  | some _ => true

/-- yup `number().min(lo).max(hi)` with a conditional `required()`: bounds
are checked on any present value; an absent value passes exactly when the
field is not required. -/
def validBoundedField (required : Bool) (lo hi : ℚ) (v : Option ℚ) : Bool :=
  match v with
  | none => !required
  | some x => decide (lo ≤ x) && decide (x ≤ hi)

/-- The `schema` object in `SimulationForm.tsx`. -/
def validateStrategyParams (ctx : SchemaContext) (p : StrategyParamsInput) : Bool :=
  validNumberField ctx.bf p.bracket_fill_ceiling &&
  validNumberField ctx.ls p.lump_sum_amount &&
  validNumberField ctx.ls p.lump_sum_year_offset &&
  validNumberField ctx.ebx p.target_depletion_age &&
  validBoundedField ctx.delay 60 70 p.cpp_start_age &&
  validBoundedField ctx.delay 60 70 p.oas_start_age &&
  validNumberField ctx.interest p.interest_rate &&
  validNumberField ctx.interest p.loan_pct_rrif

/-- `handleSubmit(onSubmit)` from react-hook-form with the yup resolver:
the submit handler runs only when the schema accepts, so a failing form
produces no request body. -/
def submitSimulationForm (ctx : SchemaContext) (p : StrategyParamsInput) :
    Option StrategyParamsInput :=
  if validateStrategyParams ctx p then some p else none

/-! ## `runSimulation` request body (`api.ts`) -/

structure RunSimulationBody where
  request_id : String
  payload : List (String × String)
deriving Repr, DecidableEq

/-- `runSimulation` in `api.ts` spreads the caller's data into a body that
also carries `request_id: crypto.randomUUID()`. The freshly drawn UUID is
made explicit as the first argument; the caller-supplied record is the
second. -/
def buildRunSimulationBody (uuid : String) (data : List (String × String)) :
    RunSimulationBody :=
  { request_id := uuid, payload := data }

/-! ## OAS claw-back recovery tax -/

/-- Modelled from the spec: the backend Tax Calculator that computes the
OAS claw-back is not part of this source snapshot (only `docs/logic.md`,
`backend/README.md` and the design text describe it). Per the spec: if net
income exceeds the configured threshold, claw-back = min(15% × (income −
threshold), benefit amount for the year), otherwise zero. -/
def oasClawback (netIncome threshold benefit : ℚ) : ℚ :=
  if threshold < netIncome then
    min (15 / 100 * (netIncome - threshold)) benefit
  else 0

/-! ## Concrete sample data used to instantiate the theorems -/

/-- A processed result using a registered strategy label, for instantiating
the general theorems on concrete inputs. -/
def sampleProcessedGM : ProcessedResult :=
  { strategy_code := "GM", strategy_name := "Gradual Meltdown",
    totalTaxes := some 5, totalSpending := some 1, finalEstate := some 1 }

/-- A raw response item whose metrics are all present. -/
def sampleRawGM : RawResult :=
  { strategy_code := "GM", strategy_name := "Gradual Meltdown",
    total_taxes := some 5, total_spending := some 1, final_estate := some 1,
    summary := none }

/-! ## Lemmas about the recommendation fold -/

lemma recStep_self (g : String) (h : ProcessedResult) : recStep g h h = h := by
  unfold recStep
  repeat' split <;> simp_all

lemma recStep_cases (g : String) (b r : ProcessedResult) :
    recStep g b r = b ∨ recStep g b r = r := by
  unfold recStep
  repeat' split
  all_goals first | exact Or.inl rfl | exact Or.inr rfl

lemma recommendedCore_cons (g : String) (h : ProcessedResult) (t : List ProcessedResult) :
    recommendedCore g (h :: t) = some (t.foldl (recStep g) h) := by
  simp [recommendedCore, List.foldl_cons, recStep_self]

lemma foldl_reportStep_some (g : String) (t : List ProcessedResult) :
    ∀ b : ProcessedResult, t.foldl (reportStep g) (some b) = some (t.foldl (recStep g) b) := by
  induction t with
  | nil => intro b; rfl
  | cons r t ih =>
    intro b
    rw [List.foldl_cons, List.foldl_cons]
    exact ih (recStep g b r)

/-- `ReportPage`'s `reduce` and `ResultsPage`'s `forEach` compute the same
recommendation on every goal and every (already normalized) list. -/
lemma reportPage_eq_core (g : String) (l : List ProcessedResult) :
    reportPageRecommended g l = recommendedCore g l := by
  cases l with
  | nil => rfl
  | cons h t =>
    unfold reportPageRecommended
    rw [List.head?_cons, List.foldl_cons]
    show t.foldl (reportStep g) (some (recStep g h h)) = _
    rw [recStep_self, foldl_reportStep_some, recommendedCore_cons]

lemma foldl_recStep_mem (g : String) (t : List ProcessedResult) :
    ∀ b : ProcessedResult, t.foldl (recStep g) b = b ∨ t.foldl (recStep g) b ∈ t := by
  induction t with
  | nil => intro b; exact Or.inl rfl
  | cons r t ih =>
    intro b
    rw [List.foldl_cons]
    rcases ih (recStep g b r) with h1 | h1
    · rcases recStep_cases g b r with h2 | h2
      · exact Or.inl (h1.trans h2)
      · exact Or.inr (by rw [h1, h2]; exact List.mem_cons_self _ _)
    · exact Or.inr (List.mem_cons_of_mem _ h1)

lemma recStep_unknown (g : String) (hg1 : g ≠ "Minimize Tax")
    (hg2 : g ≠ "Maximize Spending") (hg3 : g ≠ "Preserve Estate")
    (hg4 : g ≠ "Simplify") (b r : ProcessedResult) : recStep g b r = b := by
  unfold recStep
  rw [if_neg hg1, if_neg hg2, if_neg hg3, if_neg hg4]

lemma foldl_recStep_unknown (g : String) (hg1 : g ≠ "Minimize Tax")
    (hg2 : g ≠ "Maximize Spending") (hg3 : g ≠ "Preserve Estate")
    (hg4 : g ≠ "Simplify") (t : List ProcessedResult) :
    ∀ b : ProcessedResult, t.foldl (recStep g) b = b := by
  induction t with
  | nil => intro b; rfl
  | cons r t ih =>
    intro b
    rw [List.foldl_cons, recStep_unknown g hg1 hg2 hg3 hg4]
    exact ih b

lemma recStep_simplify_no_match (b r : ProcessedResult)
    (hr : r.strategy_name ≠ "RRIF Minimums Only") :
    recStep "Simplify" b r = b := by
  unfold recStep
  rw [if_neg (by decide), if_neg (by decide), if_neg (by decide), if_pos rfl,
    if_neg hr]

lemma foldl_recStep_simplify (t : List ProcessedResult)
    (hn : ∀ x ∈ t, x.strategy_name ≠ "RRIF Minimums Only") :
    ∀ b : ProcessedResult, t.foldl (recStep "Simplify") b = b := by
  induction t with
  | nil => intro b; rfl
  | cons r t ih =>
    intro b
    rw [List.foldl_cons,
      recStep_simplify_no_match b r (hn r (List.mem_cons_self _ _))]
    exact ih (fun x hx => hn x (List.mem_cons_of_mem _ hx)) b

lemma recStep_minimize (b r : ProcessedResult) (hb : b.totalTaxes.isSome)
    (hr : r.totalTaxes.isSome) :
    recStep "Minimize Tax" b r =
      if totalTaxesVal r < totalTaxesVal b then r else b := by
  unfold recStep
  rw [if_pos rfl]
  rcases Option.isSome_iff_exists.mp hb with ⟨y, hy⟩
  rcases Option.isSome_iff_exists.mp hr with ⟨x, hx⟩
  simp [hx, hy, totalTaxesVal]

lemma foldl_minimize_eq_selMinBy (t : List ProcessedResult) :
    ∀ b : ProcessedResult, b.totalTaxes.isSome → (∀ x ∈ t, x.totalTaxes.isSome) →
      t.foldl (recStep "Minimize Tax") b = selMinBy totalTaxesVal b t := by
  induction t with
  | nil => intro b _ _; rfl
  | cons r t ih =>
    intro b hb hall
    have hr : r.totalTaxes.isSome := hall r (List.mem_cons_self _ _)
    rw [List.foldl_cons, recStep_minimize b r hb hr]
    have hb2 : (if totalTaxesVal r < totalTaxesVal b then r else b).totalTaxes.isSome := by
      split <;> assumption
    rw [ih _ hb2 (fun x hx => hall x (List.mem_cons_of_mem _ hx))]
    rfl

/-- The strict-minimum fold picks a minimal element, and everything placed
before it in the list is strictly larger (so it is the earliest minimum). -/
lemma selMinBy_earliest_min {α : Type} (val : α → ℚ) (l : List α) :
    ∀ b : α, ∃ p q : List α,
      b :: l = p ++ selMinBy val b l :: q ∧
      (∀ x ∈ b :: l, val (selMinBy val b l) ≤ val x) ∧
      (∀ x ∈ p, val (selMinBy val b l) < val x) := by
  induction l with
  | nil =>
    intro b
    refine ⟨[], [], rfl, ?_, by simp⟩
    intro x hx
    rcases List.mem_singleton.mp hx with rfl
    exact le_refl _
  | cons r t ih =>
    intro b
    have hstep : selMinBy val b (r :: t) =
        selMinBy val (if val r < val b then r else b) t := rfl
    by_cases hrb : val r < val b
    · rcases ih r with ⟨p, q, hsplit, hmin, hstrict⟩
      rw [hstep, if_pos hrb]
      refine ⟨b :: p, q, ?_, ?_, ?_⟩
      · rw [List.cons_append, ← hsplit]
      · intro x hx
        rcases List.mem_cons.mp hx with rfl | hx
        · exact le_of_lt (lt_of_le_of_lt (hmin r (List.mem_cons_self _ _)) hrb)
        · exact hmin x hx
      · intro x hx
        rcases List.mem_cons.mp hx with rfl | hx
        · exact lt_of_le_of_lt (hmin r (List.mem_cons_self _ _)) hrb
        · exact hstrict x hx
    · rcases ih b with ⟨p, q, hsplit, hmin, hstrict⟩
      rw [hstep, if_neg hrb]
      have hrb2 : val b ≤ val r := not_lt.mp hrb
      cases p with
      | nil =>
        have hres : b = selMinBy val b t := (List.cons.injEq _ _ _ _).mp hsplit |>.1
        refine ⟨[], r :: t, ?_, ?_, by simp⟩
        · rw [List.nil_append, ← hres]
        · intro x hx
          rcases List.mem_cons.mp hx with rfl | hx
          · rw [← hres]
          · rcases List.mem_cons.mp hx with rfl | hx
            · rw [← hres]; exact hrb2
            · exact hmin x (List.mem_cons_of_mem _ hx)
      | cons z p2 =>
        obtain ⟨hz, ht⟩ := (List.cons.injEq _ _ _ _).mp hsplit
        subst hz
        have hltb : val (selMinBy val b t) < val b :=
          hstrict b (List.mem_cons_self _ _)
        refine ⟨b :: r :: p2, q, ?_, ?_, ?_⟩
        · rw [List.cons_append, List.cons_append]
          exact congrArg (fun l => b :: r :: l) ht
        · intro x hx
          rcases List.mem_cons.mp hx with rfl | hx
          · exact le_of_lt hltb
          · rcases List.mem_cons.mp hx with rfl | hx
            · exact le_of_lt (lt_of_lt_of_le hltb hrb2)
            · exact hmin x (List.mem_cons_of_mem _ hx)
        · intro x hx
          rcases List.mem_cons.mp hx with rfl | hx
          · exact hltb
          · rcases List.mem_cons.mp hx with rfl | hx
            · exact lt_of_lt_of_le hltb hrb2
            · exact hstrict x (List.mem_cons_of_mem _ hx)

/-! ## Claim theorems -/

/-- C1: For the goal "Minimize Tax" and every non-empty results list in
which every item has a non-null normalized `totalTaxes`, the recommendation
computed by `ResultsPage` (and, identically, by `ReportPage`'s reduce) is
an item whose `totalTaxes` is minimal over the list, the earliest such item
in case of ties: the normalized list splits as `p ++ rec :: q` where `rec`'s
value is ≤ every item's value and strictly below every item before it. -/
theorem minimize_tax_recommendation_earliest_min
    (raw : List RawResult) (hne : raw ≠ [])
    (hall : ∀ r ∈ raw.map normalizeResult, r.totalTaxes.isSome) :
    ∃ rec p q,
      resultsPageRecommended "Minimize Tax" raw = some rec ∧
      reportPageRecommended "Minimize Tax" (raw.map normalizeResult) = some rec ∧
      raw.map normalizeResult = p ++ rec :: q ∧
      (∀ x ∈ raw.map normalizeResult, totalTaxesVal rec ≤ totalTaxesVal x) ∧
      (∀ x ∈ p, totalTaxesVal rec < totalTaxesVal x) := by
  obtain ⟨h, t, hl⟩ : ∃ h t, raw.map normalizeResult = h :: t := by
    cases hmap : raw.map normalizeResult with
    | nil => exact absurd (List.map_eq_nil_iff.mp hmap) hne
    | cons h t => exact ⟨h, t, rfl⟩
  rw [hl] at hall ⊢
  have hh : h.totalTaxes.isSome := hall h (List.mem_cons_self _ _)
  have htt : ∀ x ∈ t, x.totalTaxes.isSome :=
    fun x hx => hall x (List.mem_cons_of_mem _ hx)
  have hfold : t.foldl (recStep "Minimize Tax") h = selMinBy totalTaxesVal h t :=
    foldl_minimize_eq_selMinBy t h hh htt
  obtain ⟨p, q, hsplit, hmin, hstrict⟩ := selMinBy_earliest_min totalTaxesVal t h
  refine ⟨selMinBy totalTaxesVal h t, p, q, ?_, ?_, hsplit, hmin, hstrict⟩
  · unfold resultsPageRecommended
    rw [hl, recommendedCore_cons, hfold]
  · rw [reportPage_eq_core, recommendedCore_cons, hfold]

/-- Witness for C1 at a concrete one-element list. -/
theorem minimize_tax_recommendation_earliest_min_witness :
    ∃ rec p q,
      resultsPageRecommended "Minimize Tax" [sampleRawGM] = some rec ∧
      reportPageRecommended "Minimize Tax" ([sampleRawGM].map normalizeResult) = some rec ∧
      [sampleRawGM].map normalizeResult = p ++ rec :: q ∧
      (∀ x ∈ [sampleRawGM].map normalizeResult, totalTaxesVal rec ≤ totalTaxesVal x) ∧
      (∀ x ∈ p, totalTaxesVal rec < totalTaxesVal x) :=
  minimize_tax_recommendation_earliest_min [sampleRawGM] (by decide) (by decide)

/-- C9: The "Simplify" recommendation branch matches only the exact name
"RRIF Minimums Only", while the registered MIN strategy's label is
"RRIF Minimum Only"; hence on every results list whose strategy names come
from the registered labels, the "Simplify" recommendation (in both
`ResultsPage` and `ReportPage`) is the first element, whether or not MIN is
present. -/
theorem simplify_recommendation_is_first_element
    (l : List ProcessedResult) (h : ProcessedResult) (t : List ProcessedResult)
    (hl : l = h :: t)
    (hnames : ∀ x ∈ l, x.strategy_name ∈ registeredLabels) :
    recommendedCore "Simplify" l = some h ∧
    reportPageRecommended "Simplify" l = some h ∧
    "RRIF Minimums Only" ∉ registeredLabels ∧
    (∃ m ∈ ALL_STRATEGIES, m.code = "MIN" ∧ m.label = "RRIF Minimum Only") := by
  have hnot : "RRIF Minimums Only" ∉ registeredLabels := by decide
  subst hl
  have hn : ∀ x ∈ h :: t, x.strategy_name ≠ "RRIF Minimums Only" := by
    intro x hx hcontra
    exact hnot (hcontra ▸ hnames x hx)
  have hkey := foldl_recStep_simplify t
    (fun x hx => hn x (List.mem_cons_of_mem _ hx)) h
  refine ⟨?_, ?_, hnot, by decide⟩
  · rw [recommendedCore_cons, hkey]
  · rw [reportPage_eq_core, recommendedCore_cons, hkey]

/-- Witness for C9 at a concrete list with a MIN-labelled item present. -/
theorem simplify_recommendation_is_first_element_witness :
    recommendedCore "Simplify"
      [sampleProcessedGM,
       { strategy_code := "MIN", strategy_name := "RRIF Minimum Only",
         totalTaxes := some 1, totalSpending := some 1, finalEstate := some 1 }] =
      some sampleProcessedGM ∧
    reportPageRecommended "Simplify"
      [sampleProcessedGM,
       { strategy_code := "MIN", strategy_name := "RRIF Minimum Only",
         totalTaxes := some 1, totalSpending := some 1, finalEstate := some 1 }] =
      some sampleProcessedGM ∧
    "RRIF Minimums Only" ∉ registeredLabels ∧
    (∃ m ∈ ALL_STRATEGIES, m.code = "MIN" ∧ m.label = "RRIF Minimum Only") :=
  simplify_recommendation_is_first_element _ _ _ rfl (by decide)

/-- C10: The recommendation is total and closed over its input: for every
goal string and list, it returns `none` exactly on the empty list, any
returned item is an element of the list, `ReportPage`'s reduce agrees with
`ResultsPage`'s loop, and an unrecognized goal yields the first element. -/
theorem recommendation_total_and_closed (g : String) (l : List ProcessedResult) :
    (recommendedCore g l = none ↔ l = []) ∧
    (reportPageRecommended g l = none ↔ l = []) ∧
    (∀ rec, recommendedCore g l = some rec → rec ∈ l) ∧
    (∀ rec, reportPageRecommended g l = some rec → rec ∈ l) ∧
    (g ≠ "Minimize Tax" → g ≠ "Maximize Spending" → g ≠ "Preserve Estate" →
      g ≠ "Simplify" → ∀ h t, l = h :: t → recommendedCore g l = some h) := by
  have hmem : ∀ rec, recommendedCore g l = some rec → rec ∈ l := by
    intro rec hrec
    cases l with
    | nil => exact absurd hrec (by simp [recommendedCore])
    | cons h t =>
      rw [recommendedCore_cons] at hrec
      obtain rfl : t.foldl (recStep g) h = rec := Option.some.inj hrec
      rcases foldl_recStep_mem g t h with h1 | h1
      · rw [h1]; exact List.mem_cons_self _ _
      · exact List.mem_cons_of_mem _ h1
  have hnone : recommendedCore g l = none ↔ l = [] := by
    cases l with
    | nil => simp [recommendedCore]
    | cons h t => rw [recommendedCore_cons]; simp
  refine ⟨hnone, by rw [reportPage_eq_core]; exact hnone, hmem,
    fun rec hrec => hmem rec (by rwa [reportPage_eq_core] at hrec), ?_⟩
  intro hg1 hg2 hg3 hg4 h t hl
  subst hl
  rw [recommendedCore_cons, foldl_recStep_unknown g hg1 hg2 hg3 hg4]

/-- Witness for C10 at a concrete unrecognized goal. -/
theorem recommendation_total_and_closed_witness :
    recommendedCore "Retire On A Boat" [sampleProcessedGM] = some sampleProcessedGM :=
  (recommendation_total_and_closed "Retire On A Boat" [sampleProcessedGM]).2.2.2.2
    (by decide) (by decide) (by decide) (by decide) sampleProcessedGM [] rfl

/-- C2 counterexample: with an empty selected-strategies list, the request's
strategy list is exactly `["GM"]`, which does not contain every one of the
nine registered strategy codes (for instance, "MIN" is missing). -/
theorem empty_selection_counterexample :
    buildStrategyList [] = ["GM"] ∧
    ¬ (∀ c ∈ allStrategyCodes, c ∈ buildStrategyList []) := by
  refine ⟨rfl, fun hall => ?_⟩
  exact absurd (hall "MIN" (by decide)) (by decide)

/-- C2 amended: when the caller supplies no strategy subset, the comparison
request runs the single default strategy GM (Gradual Meltdown); a non-empty
selection is sent unchanged. -/
theorem empty_selection_sends_gm_only (selected : List String) :
    buildStrategyList selected = if selected.isEmpty then ["GM"] else selected := by
  cases selected with
  | nil => rfl
  | cons a l => simp [buildStrategyList]

/-- C3 counterexample: toggling BF on from the initial wizard state (no
bracket-fill ceiling provided) pre-fills the ceiling with $90,000, so the
request carries 90000 — not the documented 2025 claw-back threshold of
$93,454. -/
theorem bf_default_counterexample :
    (applyStrategyToggle initialFormData ["BF"]).bracketFillCeiling = some 90000 ∧
    (buildScenarioPayload
        (applyStrategyToggle initialFormData ["BF"])).strategy_params_override.bracket_fill_ceiling =
      some 90000 ∧
    (90000 : ℚ) ≠ oasClawbackThreshold2025 :=
  ⟨rfl, rfl, by decide⟩

/-- C3 amended: when BF is toggled with no ceiling set (or a zero one), the
wizard pre-fills the bracket-fill ceiling with $90,000 and the request's
`strategy_params_override` carries that value; the claw-back-threshold
default is engine-side behaviour for requests that omit the parameter. -/
theorem bf_default_is_90000 (fd : FormData) (codes : List String)
    (hbf : codes.contains "BF" = true)
    (hnone : fd.bracketFillCeiling = none) :
    (applyStrategyToggle fd codes).bracketFillCeiling = some 90000 ∧
    (buildScenarioPayload
        (applyStrategyToggle fd codes)).strategy_params_override.bracket_fill_ceiling =
      some 90000 := by
  have h1 : (applyStrategyToggle fd codes).bracketFillCeiling = some 90000 := by
    simp only [applyStrategyToggle, hbf, hnone, jsFalsyOpt]
    split_ifs <;> first | rfl | simp_all
  exact ⟨h1, h1⟩

/-- Witness for the amended C3 at the initial wizard state. -/
theorem bf_default_is_90000_witness :
    (applyStrategyToggle initialFormData ["BF"]).bracketFillCeiling = some 90000 ∧
    (buildScenarioPayload
        (applyStrategyToggle initialFormData ["BF"])).strategy_params_override.bracket_fill_ceiling =
      some 90000 :=
  bf_default_is_90000 initialFormData ["BF"] (by decide) rfl

/-- C4 counterexample: with age = 200 the form is flagged out of range, yet
activating Run Simulation still issues the comparison request. -/
theorem invalid_field_still_requests_counterexample :
    hasFieldError { initialFormData with age := 200 } = true ∧
    (clickRunSimulation { initialFormData with age := 200 }).isSome = true :=
  ⟨by decide, rfl⟩

/-- C4 amended: a field outside its configured limit only sets an inline
error flag; the Run Simulation button is never disabled, and activating it
still issues the comparison request built from the (invalid) form state —
domain rejection happens engine-side. -/
theorem invalid_fields_do_not_gate_request (fd : FormData)
    (_herr : hasFieldError fd = true) :
    runSimulationButtonDisabled fd = false ∧
    clickRunSimulation fd = some (buildCompareRequest fd) :=
  ⟨rfl, rfl⟩

/-- Witness for the amended C4 at a concrete out-of-range form state. -/
theorem invalid_fields_do_not_gate_request_witness :
    runSimulationButtonDisabled { initialFormData with age := 200 } = false ∧
    clickRunSimulation { initialFormData with age := 200 } =
      some (buildCompareRequest { initialFormData with age := 200 }) :=
  invalid_fields_do_not_gate_request { initialFormData with age := 200 } (by decide)

/-- C5: the claw-back recovery tax is min(15% × (net income − threshold),
benefit) whenever net income exceeds the threshold and zero at or below it;
income exactly at the threshold yields zero, and one dollar above yields a
positive claw-back (for a positive gross benefit) that is at most 15% of
the one-dollar excess and capped at the gross benefit. -/
theorem oas_clawback_boundary (netIncome threshold benefit : ℚ)
    (hb : 0 < benefit) :
    (netIncome ≤ threshold → oasClawback netIncome threshold benefit = 0) ∧
    (threshold < netIncome →
      oasClawback netIncome threshold benefit =
        min (15 / 100 * (netIncome - threshold)) benefit ∧
      oasClawback netIncome threshold benefit ≤ 15 / 100 * (netIncome - threshold) ∧
      oasClawback netIncome threshold benefit ≤ benefit) ∧
    oasClawback threshold threshold benefit = 0 ∧
    0 < oasClawback (threshold + 1) threshold benefit ∧
    oasClawback (threshold + 1) threshold benefit ≤ 15 / 100 * 1 := by
  have hone : (threshold + 1 - threshold : ℚ) = 1 := by ring
  refine ⟨fun hle => if_neg (not_lt.mpr hle), fun hgt => ?_, if_neg (lt_irrefl _), ?_, ?_⟩
  · rw [oasClawback, if_pos hgt]
    exact ⟨rfl, min_le_left _ _, min_le_right _ _⟩
  · rw [oasClawback, if_pos (by linarith), hone]
    exact lt_min (by norm_num) hb
  · rw [oasClawback, if_pos (by linarith), hone]
    exact min_le_left _ _

/-- Witness for C5 at net income $100, threshold $50, benefit $10. -/
theorem oas_clawback_boundary_witness :
    ((100 : ℚ) ≤ 50 → oasClawback 100 50 10 = 0) ∧
    ((50 : ℚ) < 100 →
      oasClawback 100 50 10 = min (15 / 100 * (100 - 50)) 10 ∧
      oasClawback 100 50 10 ≤ 15 / 100 * (100 - 50) ∧
      oasClawback 100 50 10 ≤ 10) ∧
    oasClawback 50 50 10 = 0 ∧
    0 < oasClawback (50 + 1) 50 10 ∧
    oasClawback (50 + 1) 50 10 ≤ 15 / 100 * 1 :=
  oas_clawback_boundary 100 50 10 (by norm_num)

/-- C6: with the CPP/OAS-delay strategy enabled, a `cpp_start_age` or
`oas_start_age` outside [60, 70] fails the validation schema, so the submit
handler is not invoked and no request body is produced. -/
theorem start_age_window_validation (ctx : SchemaContext)
    (p : StrategyParamsInput) (_hdelay : ctx.delay = true)
    (hout : (∃ a, p.cpp_start_age = some a ∧ (a < 60 ∨ 70 < a)) ∨
            (∃ a, p.oas_start_age = some a ∧ (a < 60 ∨ 70 < a))) :
    validateStrategyParams ctx p = false ∧
    submitSimulationForm ctx p = none := by
  have hval : validateStrategyParams ctx p = false := by
    rcases hout with ⟨a, ha, hrange⟩ | ⟨a, ha, hrange⟩
    · have hfield : validBoundedField ctx.delay 60 70 p.cpp_start_age = false := by
        simp only [validBoundedField, ha]
        rcases hrange with hlo | hhi
        · rw [decide_eq_false (not_le.mpr hlo), Bool.false_and]
        · rw [decide_eq_false (not_le.mpr hhi), Bool.and_false]
      unfold validateStrategyParams
      rw [hfield]
      simp
    · have hfield : validBoundedField ctx.delay 60 70 p.oas_start_age = false := by
        simp only [validBoundedField, ha]
        rcases hrange with hlo | hhi
        · rw [decide_eq_false (not_le.mpr hlo), Bool.false_and]
        · rw [decide_eq_false (not_le.mpr hhi), Bool.and_false]
      unfold validateStrategyParams
      rw [hfield]
      simp
  refine ⟨hval, ?_⟩
  rw [submitSimulationForm, hval]
  rfl

/-- Witness for C6 with delay enabled and a CPP start age of 55. -/
theorem start_age_window_validation_witness :
    validateStrategyParams ⟨false, false, false, true, false⟩
      { cpp_start_age := some 55 } = false ∧
    submitSimulationForm ⟨false, false, false, true, false⟩
      { cpp_start_age := some 55 } = none :=
  start_age_window_validation _ _ rfl (Or.inl ⟨55, rfl, Or.inl (by norm_num)⟩)

/-- C7 counterexample: two invocations of `runSimulation` with identical
input data draw distinct UUIDs and therefore construct different request
bodies: the claim of identical requests fails at the empty data record. -/
theorem identical_input_identical_request_counterexample :
    buildRunSimulationBody "11111111-1111-1111-1111-111111111111" [] ≠
      buildRunSimulationBody "22222222-2222-2222-2222-222222222222" [] := by
  decide

/-- C7 amended: the request body is deterministic in the caller's input
except for the `request_id`, which is the freshly drawn UUID of that call:
two invocations with identical data produce identical payloads, differing
at most in `request_id`. -/
theorem request_payload_deterministic (u1 u2 : String)
    (d : List (String × String)) :
    (buildRunSimulationBody u1 d).payload = (buildRunSimulationBody u2 d).payload ∧
    (buildRunSimulationBody u1 d).request_id = u1 :=
  ⟨rfl, rfl⟩

/-- C8 counterexample: advance past the strategy step with SEQ selected
(which marks the household married), then uncheck married on the input
step; the comparison request then built for the SEQ-containing selection
carries no spouse record. -/
theorem seq_spouse_counterexample :
    (setMarried (advanceFromStrategyStep
        { initialFormData with strategies := ["SEQ"] }) false).strategies.contains "SEQ" = true ∧
    (buildScenarioPayload (setMarried (advanceFromStrategyStep
        { initialFormData with strategies := ["SEQ"] }) false)).spouse = none :=
  ⟨by decide, rfl⟩

/-- C8 amended: advancing past the strategy step with SEQ selected marks
the household married; the payload's spouse field is defined exactly when
married is true; hence a request built from the state immediately after
advancing (married unchanged since) carries a spouse record. -/
theorem seq_marks_married_and_spouse_payload (fd : FormData)
    (hseq : fd.strategies.contains "SEQ" = true) :
    (advanceFromStrategyStep fd).married = true ∧
    (∀ gd : FormData, (buildScenarioPayload gd).spouse.isSome = gd.married) ∧
    (buildScenarioPayload (advanceFromStrategyStep fd)).spouse.isSome = true := by
  have h1 : (advanceFromStrategyStep fd).married = true := by
    unfold advanceFromStrategyStep
    rw [if_pos hseq]
  have h2 : ∀ gd : FormData, (buildScenarioPayload gd).spouse.isSome = gd.married := by
    intro gd
    unfold buildScenarioPayload
    cases hm : gd.married <;> simp [hm]
  exact ⟨h1, h2, by rw [h2, h1]⟩

/-- Witness for the amended C8 at a concrete SEQ selection. -/
theorem seq_marks_married_and_spouse_payload_witness :
    (advanceFromStrategyStep
        { initialFormData with strategies := ["SEQ"] }).married = true ∧
    (buildScenarioPayload (advanceFromStrategyStep
        { initialFormData with strategies := ["SEQ"] })).spouse.isSome = true :=
  ⟨(seq_marks_married_and_spouse_payload
      { initialFormData with strategies := ["SEQ"] } (by decide)).1,
   (seq_marks_married_and_spouse_payload
      { initialFormData with strategies := ["SEQ"] } (by decide)).2.2⟩

end OntarioTaxApp
